import Mathlib

/-!
# Verification of the bua-go browser-automation core

A shallow embedding, in Lean 4, of the parts of the `bua-go` repository that
the specification's claims are about:

* the rate-limit error parser `parseRateLimitDelay` (`bua.go`);
* the `Agent.Run` orchestration loop: pending-step tracking, step promotion
  on successful tool responses, and stream-error handling (`bua.go`);
* the browser tab registry: `CloseTab`, `ListTabs`, `GetURL`, `GetTitle`,
  `createTabLocked` (`browser` package);
* the indexed element-map lookup and `Click` pointer dispatch;
* the `FindScrollableModal` three-tier heuristic (`browser` package);
* the ADK tool handlers registered by `createBrowserTools` (`agent` package).

Go machine integers are modelled as `Int`/`Nat` (no value in scope approaches
2^63), Go strings as `List Char` where character-level scanning is needed,
Go maps as association lists where assignment overwrites and `delete` removes
the key, and fallible Go calls as `Option`/`Except` results or as oracle
parameters when the outcome comes from the network/browser side.
-/

namespace Bua

/-! ## Association-list model of Go maps

`m[k] = v` is modelled by `aInsert`, `delete(m, k)` by `aErase`, and
`v, ok := m[k]` by `aLookup`.  `aInsert` removes any previous binding, so
keys are unique whenever the list is built by these operations alone. -/

def aLookup {α : Type} : List (String × α) → String → Option α
  | [], _ => none
  | (k, v) :: rest, key => if k == key then some v else aLookup rest key

def aErase {α : Type} : List (String × α) → String → List (String × α)
  | [], _ => []
  | (k, v) :: rest, key => if k == key then aErase rest key else (k, v) :: aErase rest key

def aInsert {α : Type} (m : List (String × α)) (key : String) (v : α) :
    List (String × α) :=
  (key, v) :: aErase m key

/-! ## Character-list string scanning

`strings.Contains` and the two `regexp` patterns of `parseRateLimitDelay`
operate on bytes; every string reaching them in this code base is ASCII, so
scanning `List Char` is an exact model. -/

/-- `leadsWith pat s` holds when `s` starts with `pat`. -/
def leadsWith : List Char → List Char → Bool
  | [], _ => true
  | _ :: _, [] => false
  | p :: ps, c :: cs => p == c && leadsWith ps cs

/-- `hasSub pat s`: `pat` occurs contiguously in `s` (Go `strings.Contains`). -/
def hasSub (pat : List Char) : List Char → Bool
  | [] => leadsWith pat []
  | s@(_ :: cs) => leadsWith pat s || hasSub pat cs

/-- Decimal value of a digit run (Go digit captures are `[0-9]+`). -/
def natVal (ds : List Char) : Nat :=
  ds.foldl (fun a c => a * 10 + (c.toNat - ('0').toNat)) 0

end Bua

namespace Bua

/-! ## `parseRateLimitDelay` (bua.go)

The Go function first requires the message to contain "429" or
"RESOURCE_EXHAUSTED" (else it returns `(0, false)`); it then tries the regex
`retry in (\d+(?:\.\d+)?)s`, then `retryDelay:(\d+)s`, and finally defaults
to `(30 * time.Second, true)`.

The two regexes are literal text followed by digit runs, so leftmost-match
with greedy `\d+` is equivalent to: scan positions left to right and at each
position try the literal followed by maximal digit runs (giving back a digit
would place a digit where a non-digit is required, so backtracking inside a
digit run can never succeed).  `time.Duration` is int64 nanoseconds; the
`float64` seconds-to-milliseconds conversion is modelled exactly over the
captured digits (it agrees with the float path on all inputs any theorem
below touches). -/

/-- Try the first pattern, `retry in (\d+(?:\.\d+)?)s`, anchored at the start
of `s`.  Returns the captured integer digits and optional fraction digits. -/
def matchRetryInAt (s : List Char) : Option (List Char × Option (List Char)) :=
  if leadsWith ("retry in ").data s then
    let rest := s.drop 9
    let ds := rest.takeWhile (·.isDigit)
    let r1 := rest.dropWhile (·.isDigit)
    if ds.isEmpty then none
    else
      match r1 with
      | '.' :: r2 =>
        let fs := r2.takeWhile (·.isDigit)
        let r3 := r2.dropWhile (·.isDigit)
        if fs.isEmpty then none
        else
          match r3 with
          | 's' :: _ => some (ds, some fs)
          | _ => none
      | 's' :: _ => some (ds, none)
      | _ => none
  else none

/-- Leftmost match of `retry in (\d+(?:\.\d+)?)s` in `s`. -/
def findRetryIn : List Char → Option (List Char × Option (List Char))
  | [] => matchRetryInAt []
  | s@(_ :: cs) =>
    match matchRetryInAt s with
    | some r => some r
    | none => findRetryIn cs

/-- Try the second pattern, `retryDelay:(\d+)s`, anchored at the start of `s`. -/
def matchRetryDelayAt (s : List Char) : Option (List Char) :=
  if leadsWith ("retryDelay:").data s then
    let rest := s.drop 11
    let ds := rest.takeWhile (·.isDigit)
    let r1 := rest.dropWhile (·.isDigit)
    if ds.isEmpty then none
    else
      match r1 with
      | 's' :: _ => some ds
      | _ => none
  else none

/-- Leftmost match of `retryDelay:(\d+)s` in `s`. -/
def findRetryDelay : List Char → Option (List Char)
  | [] => matchRetryDelayAt []
  | s@(_ :: cs) =>
    match matchRetryDelayAt s with
    | some r => some r
    | none => findRetryDelay cs

/-- Milliseconds denoted by captured digits `ds` (integer part) and optional
fraction digits: `ParseFloat` then `time.Duration(seconds*1000)`, which
truncates toward zero; values are non-negative so this is a floor. -/
def capturedMs (ds : List Char) (fs : Option (List Char)) : Nat :=
  natVal ds * 1000 +
    match fs with
    | none => 0
    | some f => natVal f * 1000 / 10 ^ f.length

/-- Whether the message matches the rate-limit signature. -/
def isRateLimitMsg (m : List Char) : Bool :=
  hasSub ("429").data m || hasSub ("RESOURCE_EXHAUSTED").data m

/-- `parseRateLimitDelay` from `bua.go`.  The first component is the returned
`time.Duration` in nanoseconds (`time.Millisecond = 10^6`,
`time.Second = 10^9`), the second the returned `bool`. -/
def parseRateLimitDelay (errMsg : String) : Int × Bool :=
  let m := errMsg.data
  if !isRateLimitMsg m then (0, false)
  else
    match findRetryIn m with
    | some (ds, fs) => ((capturedMs ds fs : Int) * 1000000, true)
    | none =>
      match findRetryDelay m with
      | some ds => ((natVal ds : Int) * 1000000000, true)
      | none => (30 * 1000000000, true)

end Bua

namespace Bua

/-! ## The `Agent.Run` orchestration loop (bua.go)

`Run` iterates over a stream of `(event, err)` pairs from the ADK runner.
An event's `Content.Parts` may each carry free text, a `FunctionCall`, or a
`FunctionResponse`; `Run` folds them into a `Result` while tracking pending
steps per tool name.  Debug printing and token estimation are pure logging
with no effect on any `Result` field and are omitted from the model, as is
the post-loop summary/stats assembly (it never touches `Success`, `Error`
or `Steps`).  Dynamic `any` values from JSON argument maps are modelled by
`GoVal`. -/

/-- A Go `any` value as it appears in tool-call argument and response maps. -/
inductive GoVal where
  | vStr (s : String)
  | vBool (b : Bool)
  | vInt (n : Int)
  | vMap (m : List (String × GoVal))

/-- The `v.(string)` type assertion. -/
def GoVal.asStr : GoVal → Option String
  | .vStr s => some s
  | _ => none

/-- `fmt.Sprintf("%v", v)`, used only to render the `element_index` argument
into the human-readable `Target` text. -/
def GoVal.fmtV : GoVal → String
  | .vStr s => s
  | .vBool true => "true"
  | .vBool false => "false"
  | .vInt n => toString n
  | .vMap _ => "map[]"

/-- `truncateString` from `bua.go`.  Go indexes bytes; every string reaching
it in the claims is ASCII, so character indexing coincides. -/
def truncateString (s : String) (maxLen : Nat) : String :=
  if s.data.length ≤ maxLen then s
  else if maxLen ≤ 3 then ⟨s.data.take maxLen⟩
  else ⟨s.data.take (maxLen - 3)⟩ ++ "..."

/-- The `Step` struct from `bua.go` (its exact four fields). -/
structure Step where
  action : String
  target : String
  reasoning : String
  screenshotPath : String
deriving DecidableEq, Repr

/-- The mutable pieces of `result` and the loop-local variables of
`Agent.Run`. -/
structure RunState where
  success : Bool
  error : String
  steps : List Step
  data : List (String × GoVal)
  lastResponse : String
  doneSummary : String
  pendingSteps : List (String × Step)
  doneToolCalled : Bool
  humanTakeoverRequested : Bool

/-- The state of `result` and the loop variables just before the event loop:
`result := &Result{Success: true, Steps: []Step{}, Data: map}`. -/
def initRunState : RunState :=
  { success := true, error := "", steps := [], data := [], lastResponse := ""
    doneSummary := "", pendingSteps := [], doneToolCalled := false
    humanTakeoverRequested := false }

/-- The pending `Step` built when a `FunctionCall` part is seen: action is
the tool name, reasoning comes from the `reasoning`/`reason` argument, and
the target text from `element_index`, `url` and `text`. -/
def mkPendingStep (name : String) (args : List (String × GoVal)) : Step :=
  let reasoning :=
    match aLookup args "reasoning" with
    | some v => (v.asStr).getD ""
    | none =>
      match aLookup args "reason" with
      | some v => (v.asStr).getD ""
      | none => ""
  let target0 :=
    match aLookup args "element_index" with
    | some v => "Element #" ++ v.fmtV
    | none => ""
  let target1 :=
    match aLookup args "url" with
    | some v => match v.asStr with | some u => u | none => target0
    | none => target0
  let target2 :=
    match aLookup args "text" with
    | some v =>
      match v.asStr with
      | some t =>
        if target1 != "" then target1 ++ " → \"" ++ truncateString t 30 ++ "\""
        else "\"" ++ truncateString t 30 ++ "\""
      | none => target1
    | none => target1
  { action := name, target := target2, reasoning := reasoning, screenshotPath := "" }

/-- Processing of a `FunctionCall` part: store the pending step under the
tool name, then special-case `done` and `request_human_takeover`. -/
def processFunctionCall (s : RunState) (name : String)
    (args : List (String × GoVal)) : RunState :=
  let s := { s with pendingSteps := aInsert s.pendingSteps name (mkPendingStep name args) }
  let s :=
    if name == "done" then
      let s := { s with doneToolCalled := true }
      let s :=
        match aLookup args "data" with
        | some (GoVal.vMap m) => { s with data := m }
        | _ => s
      let s :=
        match aLookup args "summary" with
        | some v => match v.asStr with | some str => { s with doneSummary := str } | none => s
        | none => s
      match aLookup args "success" with
      | some (GoVal.vBool b) => { s with success := b }
      | _ => s
    else s
  if name == "request_human_takeover" then
    let s := { s with humanTakeoverRequested := true, success := false }
    match aLookup args "reason" with
    | some v =>
      match v.asStr with
      | some str => { s with doneSummary := "Human takeover requested: " ++ str }
      | none => s
    | none => s
  else s

/-- Does a response map report `success == true` (a `success` key holding a
bool that is true)? -/
def respSuccessTrue (resp : List (String × GoVal)) : Bool :=
  match aLookup resp "success" with
  | some (GoVal.vBool true) => true
  | _ => false

/-- Processing of a `FunctionResponse` part: promote the pending step into
`result.Steps` only when the response reports success and the tool is
neither `done` nor `get_page_state`; then delete the pending entry
unconditionally. -/
def processFunctionResponse (s : RunState) (funcName : String)
    (resp : List (String × GoVal)) : RunState :=
  let s :=
    if respSuccessTrue resp then
      match aLookup s.pendingSteps funcName with
      | some step =>
        if funcName != "done" && funcName != "get_page_state" then
          { s with steps := s.steps ++ [step] }
        else s
      | none => s
    else s
  { s with pendingSteps := aErase s.pendingSteps funcName }

/-- One `*genai.Part` of an event: optional text, function call, response. -/
structure Part where
  text : String
  functionCall : Option (String × List (String × GoVal))
  functionResponse : Option (String × List (String × GoVal))

/-- A part holding only a function call. -/
def callPart (name : String) (args : List (String × GoVal)) : Part :=
  { text := "", functionCall := some (name, args), functionResponse := none }

/-- A part holding only a function response. -/
def respPart (name : String) (resp : List (String × GoVal)) : Part :=
  { text := "", functionCall := none, functionResponse := some (name, resp) }

/-- Processing of one part (the body of the inner `for i, part` loop). -/
def processPart (s : RunState) (p : Part) : RunState :=
  let s := if p.text != "" then { s with lastResponse := p.text } else s
  let s :=
    match p.functionCall with
    | some (n, args) => processFunctionCall s n args
    | none => s
  match p.functionResponse with
  | some (n, resp) => processFunctionResponse s n resp
  | none => s

/-- One `(event, err)` pair yielded by the runner's stream. -/
inductive Event where
  | errEvent (msg : String)
  | okEvent (parts : List Part)

/-- Outcome of the event loop: a final state (whether it fell off the end of
the stream, `break`-ed, or `return`-ed — the post-loop code never touches
`Success`, `Error` or `Steps`), or a full-run retry after a rate-limit
sleep (`return a.Run(ctx, prompt)`; the cancellable sleep is outside the
model, and cancellation there also ends the attempt). -/
inductive RunOut where
  | res (s : RunState)
  | retryRun

/-- The event loop of `Agent.Run`.  Error handling, in source order: ignore
errors after a successful `done`; fail on a pending human takeover; treat
`empty response` with existing steps as an incomplete task; retry the whole
run on a rate-limit signature; otherwise fail with the raw error text. -/
def runLoop : RunState → List Event → RunOut
  | s, [] => .res s
  | s, .errEvent e :: rest =>
    if s.doneToolCalled && s.success then runLoop s rest
    else if s.humanTakeoverRequested then
      .res { s with success := false
                    error := "human takeover requested - agent could not complete task" }
    else if e == "empty response" && !s.steps.isEmpty then
      .res { s with success := false
                    error := "agent did not complete task (no done() call)" }
    else if (parseRateLimitDelay e).2 then .retryRun
    else .res { s with success := false, error := e }
  | s, .okEvent ps :: rest => runLoop (ps.foldl processPart s) rest

/-- `Agent.Run` on a given event stream, from the initial result state. -/
def agentRunEvents (events : List Event) : RunOut :=
  runLoop initRunState events

end Bua

namespace Bua

/-! ## The browser tab registry (browser package)

`Browser` holds `pages map[string]*rod.Page`, an `activeTabID`, and a
deprecated single-page field `page`.  A page handle is opaque here (`Nat`);
`page.Info()` is a protocol round-trip and appears as an oracle
`info : Nat → Option PageInfo` (`none` models an `Info()` error). -/

/-- Result of `page.Info()`: the fields the registry reads. -/
structure PageInfo where
  url : String
  title : String
deriving DecidableEq, Repr

/-- The registry state guarded by the `Browser` mutex. -/
structure BrowserState where
  pages : List (String × Nat)
  activeTabID : String
  legacyPage : Option Nat
deriving DecidableEq, Repr

/-- `getActivePageLocked`: the active tab's page when the id resolves,
falling back to the legacy single-page field. -/
def getActivePageLocked (st : BrowserState) : Option Nat :=
  match (if st.activeTabID != "" then aLookup st.pages st.activeTabID else none) with
  | some p => some p
  | none => st.legacyPage

/-- `Browser.GetURL`: empty string when there is no active page or the
page-info query fails. -/
def getURL (st : BrowserState) (info : Nat → Option PageInfo) : String :=
  match getActivePageLocked st with
  | none => ""
  | some p =>
    match info p with
    | none => ""
    | some i => i.url

/-- `Browser.GetTitle`: same shape as `getURL`, reading the title. -/
def getTitle (st : BrowserState) (info : Nat → Option PageInfo) : String :=
  match getActivePageLocked st with
  | none => ""
  | some p =>
    match info p with
    | none => ""
    | some i => i.title

/-- One entry of `Browser.ListTabs`. -/
structure TabInfoRec where
  id : String
  url : String
  title : String
deriving DecidableEq, Repr

/-- `Browser.ListTabs`: tabs whose `Info()` call fails are skipped.  Go map
iteration order is unspecified; the claims below use only membership, which
is order-independent, so the association-list order stands in for it. -/
def listTabs (st : BrowserState) (info : Nat → Option PageInfo) : List TabInfoRec :=
  st.pages.filterMap (fun kv => (info kv.2).map (fun i => ⟨kv.1, i.url, i.title⟩))

/-- `Browser.CloseTab`.  Returns the new registry state and the returned
`error` (`some msg` for a non-nil error).  Error paths return before any
mutation, so they carry the state unchanged.  When the active tab is
closed, Go promotes an arbitrary entry of the map (`for ... { ...; break }`);
the head of the remaining association list stands in for that choice. -/
def closeTab (st : BrowserState) (tabID : String) : BrowserState × Option String :=
  match aLookup st.pages tabID with
  | none => (st, some ("tab " ++ tabID ++ " not found"))
  | some _ =>
    if st.pages.length ≤ 1 then (st, some "cannot close the last tab")
    else
      let pages := aErase st.pages tabID
      if st.activeTabID == tabID then
        match pages with
        | (newTabID, newPage) :: _ =>
          ({ pages := pages, activeTabID := newTabID, legacyPage := some newPage }, none)
        | [] => ({ st with pages := pages }, none)
      else ({ st with pages := pages }, none)

end Bua

namespace Bua

/-! ## `createTabLocked` as a protocol-call trace (browser package)

`createTabLocked` issues `b.rod.Page(proto.TargetCreateTarget{URL: url})`
and then, when a viewport is configured, `page.SetViewport`, i.e. the
`Emulation.setDeviceMetricsOverride` protocol command.  `Browser.NewTab`
follows with `WaitLoad` and the bounded stability wait.  The temporal claim
is settled over the ordered trace of protocol operations. -/

/-- The protocol operations the tab-creation path issues, in order. -/
inductive ProtoOp where
  | targetCreateTarget (url : String)
  | setDeviceMetricsOverride (w h : Int)
  | pageWaitLoad
  | pageWaitStable
deriving DecidableEq, Repr

/-- The trace of `createTabLocked(url)`: page creation, then the
device-metrics override when a viewport is configured. -/
def createTabLockedOps (viewport : Option (Int × Int)) (url : String) : List ProtoOp :=
  ProtoOp.targetCreateTarget url ::
    (match viewport with
     | some (w, h) => [ProtoOp.setDeviceMetricsOverride w h]
     | none => [])

/-- The trace of `Browser.NewTab(url)`: `createTabLocked`, then `WaitLoad`,
then the bounded stability wait. -/
def newTabOps (viewport : Option (Int × Int)) (url : String) : List ProtoOp :=
  createTabLockedOps viewport url ++ [ProtoOp.pageWaitLoad, ProtoOp.pageWaitStable]

/-- Whether a protocol operation initiates navigation to `url`.  The
protocol's `Target.createTarget` takes the initial URL the new page will be
navigated to, so creating the target with `url` already starts that
navigation; an explicit navigate command would too (none occurs on this
path). -/
def initiatesNavigationTo (op : ProtoOp) (url : String) : Bool :=
  match op with
  | .targetCreateTarget u => u == url
  | _ => false

/-- Whether a protocol operation is the device-metrics (viewport) override. -/
def isDeviceMetricsOverride : ProtoOp → Bool
  | .setDeviceMetricsOverride _ _ => true
  | _ => false

end Bua

namespace Bua

/-! ## `ElementMap.ByIndex` and `Browser.Click` (dom and browser packages)

`Browser.Click` re-extracts the element map from the current page, resolves
the element, and dispatches a mouse-moved / mouse-pressed / mouse-released
sequence at the element's bounding-box centre via
`proto.InputDispatchMouseEvent` (left button; click counts 0, 1, 1).  The
highlight shown before the click is cosmetic DOM injection whose error is
discarded (`_ =`) and which dispatches no pointer events, so it is omitted.
Each protocol dispatch may fail; the oracle `dispatch` returns `some err`
for a failing call. -/

/-- A bounding box as captured in a snapshot (viewport-relative pixels,
Go `float64`; modelled as exact rationals). -/
structure BoundingBox where
  x : ℚ
  y : ℚ
  width : ℚ
  height : ℚ
deriving DecidableEq, Repr

/-- Modelled from the spec: the `dom` package's `Element` is not under
`src/` (only `dom/element_test.go` is).  The spec gives it a stable integer
index and a viewport-relative bounding box; only those two fields are read
by `Browser.Click`. -/
structure Element where
  index : Int
  boundingBox : BoundingBox
deriving DecidableEq, Repr

/-- Modelled from the spec: the `dom` package's `ElementMap` is not under
`src/`.  Per the spec it is an ordered sequence of Elements plus an
index → Element lookup in which the last write wins on a duplicate index
and `byIndex` never invents an entry; `dom/element_test.go` exercises
exactly this contract. -/
structure ElementMap where
  elements : List Element
deriving DecidableEq, Repr

/-- `ElementMap.ByIndex`: the most recently added element carrying the
index, if any (last write wins). -/
def ElementMap.byIndex (em : ElementMap) (i : Int) : Option Element :=
  em.elements.reverse.find? (fun el => el.index == i)

/-- One `proto.InputDispatchMouseEvent` call (always the left button). -/
structure MouseEvent where
  type : String
  x : ℚ
  y : ℚ
  clickCount : Nat
deriving DecidableEq, Repr

/-- `Browser.Click(elementIndex)` over the freshly extracted map
`extractResult` (`.error` models `dom.ExtractElementMap` failing).  Returns
the protocol pointer events dispatched, in order, and the method's result. -/
def clickOps (extractResult : Except String ElementMap) (elementIndex : Int)
    (dispatch : MouseEvent → Option String) : List MouseEvent × Except String Unit :=
  match extractResult with
  | .error e => ([], .error ("failed to get element map: " ++ e))
  | .ok elements =>
    match elements.byIndex elementIndex with
    | none =>
      ([], .error ("element with index " ++ toString elementIndex ++ " not found"))
    | some el =>
      let centerX := el.boundingBox.x + el.boundingBox.width / 2
      let centerY := el.boundingBox.y + el.boundingBox.height / 2
      let e1 : MouseEvent := ⟨"mouseMoved", centerX, centerY, 0⟩
      match dispatch e1 with
      | some err => ([e1], .error ("failed to move mouse: " ++ err))
      | none =>
        let e2 : MouseEvent := ⟨"mousePressed", centerX, centerY, 1⟩
        match dispatch e2 with
        | some err => ([e1, e2], .error ("failed to press mouse: " ++ err))
        | none =>
          let e3 : MouseEvent := ⟨"mouseReleased", centerX, centerY, 1⟩
          match dispatch e3 with
          | some err => ([e1, e2, e3], .error ("failed to release mouse: " ++ err))
          | none => ([e1, e2, e3], .ok ())

end Bua

namespace Bua

/-! ## `Browser.FindScrollableModal` (browser package)

The in-page script, modelled over a document snapshot: a list of elements
in document order, each carrying the computed style, scroll metrics,
bounding rect and the `data-bua-index` attribute the script reads.
`buaIndex` is the attribute's numeric value (`parseInt`), `none` when the
attribute is absent; the DOM extractor only ever writes numeric indices.
`firstDescScroll` is the scroll/client height of `el.querySelector('*')`
— the element's first descendant — or `none` for a childless element.
Rect values are `float64`; modelled as exact rationals.

Priority 1 returns the first visible `role="dialog"` element with scroll
overflow (own or first descendant) and a present index — immediately,
before priorities 2 and 3 are considered.  Priorities 2 and 3 push into a
single shared `candidates` array which is then sorted by score descending
(`candidates.sort((a, b) => b.score - a.score)`, a stable sort) and the
first entry returned: `pickBest` models sort-then-first as the earliest
candidate of maximal score. -/

/-- One element as seen by the modal-detector script. -/
structure JSElem where
  role : String
  display : String
  visibility : String
  position : String
  overflowY : String
  scrollHeight : Int
  clientHeight : Int
  rectWidth : ℚ
  rectHeight : ℚ
  rectTop : ℚ
  rectLeft : ℚ
  buaIndex : Option Int
  firstDescScroll : Option (Int × Int)
deriving DecidableEq, Repr

/-- Whether a `role="dialog"` element passes the priority-1 checks:
visible, and itself or its first descendant has scroll overflow. -/
def dialogQualifies (el : JSElem) : Bool :=
  el.display != "none" && el.visibility != "hidden" &&
    (el.scrollHeight > el.clientHeight ||
      (match el.firstDescScroll with
       | some (sh, ch) => sh > ch
       | none => false))

/-- Priority 1: scan the dialogs in document order; return the first
qualifying one whose `data-bua-index` attribute is present (a dialog that
qualifies but has no index falls through to the next dialog). -/
def tier1 : List JSElem → Option Int
  | [] => none
  | el :: rest =>
    if el.role == "dialog" && dialogQualifies el then
      match el.buaIndex with
      | some i => some i
      | none => tier1 rest
    else tier1 rest

/-- Priority-2 score: rendered area `rect.width * rect.height`. -/
def tier2Score (el : JSElem) : ℚ :=
  el.rectWidth * el.rectHeight

/-- Priority-2 qualification: scrollable overflow-y, fixed/absolute
position, not display-none, and area above the 10,000 px² threshold. -/
def isTier2 (el : JSElem) : Bool :=
  (el.overflowY == "auto" || el.overflowY == "scroll") &&
  el.scrollHeight > el.clientHeight &&
  (el.position == "fixed" || el.position == "absolute") &&
  el.display != "none" &&
  tier2Score el > 10000

/-- Priority-3 qualification: scrollable range over 100px, not
display-none, rect at least 200×200 and within the viewport's top-left
origin. -/
def isTier3 (el : JSElem) : Bool :=
  (el.overflowY == "auto" || el.overflowY == "scroll") &&
  el.scrollHeight > el.clientHeight + 100 &&
  el.display != "none" &&
  el.rectWidth > 200 && el.rectHeight > 200 &&
  el.rectTop ≥ 0 && el.rectLeft ≥ 0

/-- Priority-3 score: scrollable range times width, at half weight. -/
def tier3Score (el : JSElem) : ℚ :=
  ((el.scrollHeight - el.clientHeight : Int) : ℚ) * el.rectWidth * (1 / 2)

/-- A scored entry of the shared `candidates` array. -/
structure Cand where
  idx : Int
  score : ℚ
deriving DecidableEq, Repr

/-- The priority-2 loop over `[data-bua-index]` elements. -/
def tier2Cands (doc : List JSElem) : List Cand :=
  doc.filterMap (fun el =>
    match el.buaIndex with
    | some i => if isTier2 el then some ⟨i, tier2Score el⟩ else none
    | none => none)

/-- The priority-3 loop over the same `[data-bua-index]` elements. -/
def tier3Cands (doc : List JSElem) : List Cand :=
  doc.filterMap (fun el =>
    match el.buaIndex with
    | some i => if isTier3 el then some ⟨i, tier3Score el⟩ else none
    | none => none)

/-- Stable descending sort by score followed by `[0]`: the earliest
candidate of maximal score. -/
def pickBest : List Cand → Option Cand
  | [] => none
  | c :: cs => some (cs.foldl (fun best d => if d.score > best.score then d else best) c)

/-- `Browser.FindScrollableModal`'s in-page script over a document
snapshot.  (On a script/evaluation error the Go method returns `(-1, err)`
without running any of this; the claims concern the heuristic itself.) -/
def findScrollableModal (doc : List JSElem) : Int :=
  match tier1 doc with
  | some i => i
  | none =>
    match pickBest (tier2Cands doc ++ tier3Cands doc) with
    | some c => c.idx
    | none => -1

end Bua

namespace Bua

/-! ## The ADK tool handlers of `createBrowserTools` (agent package)

Each handler closes over the `BrowserAgent` and calls browser methods whose
outcomes arrive over the protocol; those outcomes are an oracle here
(`BrowserOracle`), with `Option String` for a Go `error` result (`some` is
a non-nil error) and `Except` for value-or-error calls.  A handler's Go
signature is `func(tool.Context, Input) (Output, error)`; the model returns
`Output × Option String` with the second component the handler's own
`error` return.  Logging (`a.logger.*`) and the pre/post-action annotation
hooks have no effect on either return value and are omitted. -/

/-- Outcomes of the browser calls a handler can make. -/
structure BrowserOracle where
  clickRes : Option String
  typeRes : Option String
  scrollElemRes : Option String
  scrollAutoRes : Int × Option String
  scrollPageRes : Option String
  navigateRes : Option String
  waitStableRes : Option String
  elementMapRes : Except String String
  urlStr : String
  titleStr : String
  screenshotStr : String
  pageStateShot : Option String
  newTabRes : Except String String
  switchTabRes : Option String
  closeTabRes : Option String
  tabsList : List (String × String × String)
  activeTabID : String
  downloadResourceRes : Except String (String × String × Int × String)
  downloadFileRes : Except String (String × String × Int × String)

structure ClickInput where
  elementIndex : Int
  reasoning : String

structure ClickOutput where
  success : Bool
  message : String
  screenshot : String
deriving DecidableEq, Repr

/-- The `click` tool handler. -/
def clickHandler (browserNil : Bool) (o : BrowserOracle) (input : ClickInput) :
    ClickOutput × Option String :=
  if browserNil then ({ success := false, message := "Browser not initialized", screenshot := "" }, none)
  else
    match o.clickRes with
    | some err => ({ success := false, message := err, screenshot := "" }, none)
    | none =>
      ({ success := true, message := "Clicked element " ++ toString input.elementIndex
         screenshot := o.screenshotStr }, none)

structure TypeInput where
  elementIndex : Int
  text : String
  reasoning : String

structure TypeOutput where
  success : Bool
  message : String
  screenshot : String
deriving DecidableEq, Repr

/-- The `type_text` tool handler. -/
def typeHandler (browserNil : Bool) (o : BrowserOracle) (input : TypeInput) :
    TypeOutput × Option String :=
  if browserNil then ({ success := false, message := "Browser not initialized", screenshot := "" }, none)
  else
    match o.typeRes with
    | some err => ({ success := false, message := err, screenshot := "" }, none)
    | none =>
      ({ success := true
         message := "Typed '" ++ input.text ++ "' into element " ++ toString input.elementIndex
         screenshot := o.screenshotStr }, none)

structure ScrollInput where
  direction : String
  amount : Int
  elementID : Int
  autoDetect : Bool
  reasoning : String

structure ScrollOutput where
  success : Bool
  message : String
  elementScrolled : Int
  screenshot : String
deriving DecidableEq, Repr

/-- The `scroll` tool handler: validates the direction, then scrolls within
an explicit element, an auto-detected modal, or the page. -/
def scrollHandler (browserNil : Bool) (o : BrowserOracle) (input : ScrollInput) :
    ScrollOutput × Option String :=
  if browserNil then
    ({ success := false, message := "Browser not initialized", elementScrolled := 0, screenshot := "" }, none)
  else
    let amount := if input.amount == 0 then 500 else input.amount
    if input.direction != "up" && input.direction != "down" then
      ({ success := false, message := "Invalid direction. Use: up or down"
         elementScrolled := 0, screenshot := "" }, none)
    else if input.elementID > 0 then
      match o.scrollElemRes with
      | some err => ({ success := false, message := err, elementScrolled := 0, screenshot := "" }, none)
      | none =>
        ({ success := true
           message := "Scrolled " ++ input.direction ++ " by " ++ toString amount ++
             " pixels within element " ++ toString input.elementID
           elementScrolled := input.elementID, screenshot := o.screenshotStr }, none)
    else if input.autoDetect then
      let (elementScrolled, errOpt) := o.scrollAutoRes
      let msg :=
        if elementScrolled > 0 then
          "Auto-detected modal: Scrolled " ++ input.direction ++ " by " ++ toString amount ++
            " pixels within element " ++ toString elementScrolled
        else
          "No modal detected: Scrolled " ++ input.direction ++ " by " ++ toString amount ++
            " pixels on the page"
      match errOpt with
      | some err => ({ success := false, message := err, elementScrolled := 0, screenshot := "" }, none)
      | none =>
        ({ success := true, message := msg
           elementScrolled := elementScrolled, screenshot := o.screenshotStr }, none)
    else
      match o.scrollPageRes with
      | some err => ({ success := false, message := err, elementScrolled := 0, screenshot := "" }, none)
      | none =>
        ({ success := true
           message := "Scrolled " ++ input.direction ++ " by " ++ toString amount ++ " pixels"
           elementScrolled := 0, screenshot := o.screenshotStr }, none)

structure NavigateInput where
  url : String
  reasoning : String

structure NavigateOutput where
  success : Bool
  message : String
  url : String
  title : String
  screenshot : String
deriving DecidableEq, Repr

/-- The `navigate` tool handler. -/
def navigateHandler (browserNil : Bool) (o : BrowserOracle) (input : NavigateInput) :
    NavigateOutput × Option String :=
  if browserNil then
    ({ success := false, message := "Browser not initialized", url := "", title := "", screenshot := "" }, none)
  else
    match o.navigateRes with
    | some err => ({ success := false, message := err, url := "", title := "", screenshot := "" }, none)
    | none =>
      ({ success := true, message := "Navigated to " ++ input.url
         url := o.urlStr, title := o.titleStr, screenshot := o.screenshotStr }, none)

structure WaitInput where
  reason : String

structure WaitOutput where
  success : Bool
  message : String
deriving DecidableEq, Repr

/-- The `wait` tool handler. -/
def waitHandler (browserNil : Bool) (o : BrowserOracle) (input : WaitInput) :
    WaitOutput × Option String :=
  if browserNil then ({ success := false, message := "Browser not initialized" }, none)
  else
    match o.waitStableRes with
    | some err => ({ success := false, message := err }, none)
    | none => ({ success := true, message := "Waited for page to stabilize: " ++ input.reason }, none)

structure GetPageStateInput where
  excludeScreenshot : Option Bool

structure GetPageStateOutput where
  success : Bool
  url : String
  title : String
  elementMap : String
  screenshot : String
  error : String
deriving DecidableEq, Repr

/-- The `get_page_state` tool handler.  An element-map failure is reported
in the output (`success := false`); a screenshot failure only omits the
screenshot; annotation failures are logged and ignored. -/
def getPageStateHandler (browserNil : Bool) (textOnly : Bool) (o : BrowserOracle)
    (input : GetPageStateInput) : GetPageStateOutput × Option String :=
  if browserNil then
    ({ success := false, url := "", title := "", elementMap := "", screenshot := ""
       error := "Browser not initialized" }, none)
  else
    match o.elementMapRes with
    | .error e =>
      ({ success := false, url := o.urlStr, title := o.titleStr, elementMap := ""
         screenshot := "", error := "Failed to get element map: " ++ e }, none)
    | .ok emText =>
      let excludeScreenshot := textOnly || input.excludeScreenshot == some true
      let shot :=
        if excludeScreenshot then ""
        else
          match o.pageStateShot with
          | some s => s
          | none => ""
      ({ success := true, url := o.urlStr, title := o.titleStr, elementMap := emText
         screenshot := shot, error := "" }, none)

structure NewTabInput where
  url : String

structure NewTabOutput where
  success : Bool
  message : String
  tabID : String
  url : String
deriving DecidableEq, Repr

/-- The `new_tab` tool handler. -/
def newTabHandler (browserNil : Bool) (o : BrowserOracle) (input : NewTabInput) :
    NewTabOutput × Option String :=
  if browserNil then
    ({ success := false, message := "Browser not initialized", tabID := "", url := "" }, none)
  else
    match o.newTabRes with
    | .error err => ({ success := false, message := err, tabID := "", url := "" }, none)
    | .ok tabID =>
      ({ success := true, message := "Opened new tab: " ++ tabID
         tabID := tabID, url := input.url }, none)

structure SwitchTabInput where
  tabID : String

structure SwitchTabOutput where
  success : Bool
  message : String
  url : String
  title : String
deriving DecidableEq, Repr

/-- The `switch_tab` tool handler. -/
def switchTabHandler (browserNil : Bool) (o : BrowserOracle) (input : SwitchTabInput) :
    SwitchTabOutput × Option String :=
  if browserNil then
    ({ success := false, message := "Browser not initialized", url := "", title := "" }, none)
  else
    match o.switchTabRes with
    | some err => ({ success := false, message := err, url := "", title := "" }, none)
    | none =>
      ({ success := true, message := "Switched to tab: " ++ input.tabID
         url := o.urlStr, title := o.titleStr }, none)

structure CloseTabInput where
  tabID : String

structure CloseTabOutput where
  success : Bool
  message : String
deriving DecidableEq, Repr

/-- The `close_tab` tool handler. -/
def closeTabHandler (browserNil : Bool) (o : BrowserOracle) (input : CloseTabInput) :
    CloseTabOutput × Option String :=
  if browserNil then ({ success := false, message := "Browser not initialized" }, none)
  else
    match o.closeTabRes with
    | some err => ({ success := false, message := err }, none)
    | none => ({ success := true, message := "Closed tab: " ++ input.tabID }, none)

structure TabInfoOut where
  tabID : String
  url : String
  title : String
  active : Bool
deriving DecidableEq, Repr

structure ListTabsOutput where
  success : Bool
  tabs : List TabInfoOut
  activeTab : String
  error : String
deriving DecidableEq, Repr

/-- The `list_tabs` tool handler (its input struct is empty). -/
def listTabsHandler (browserNil : Bool) (o : BrowserOracle) :
    ListTabsOutput × Option String :=
  if browserNil then
    ({ success := false, tabs := [], activeTab := "", error := "Browser not initialized" }, none)
  else
    let tabInfos := o.tabsList.map (fun t =>
      TabInfoOut.mk t.1 t.2.1 t.2.2 (t.1 == o.activeTabID))
    ({ success := true, tabs := tabInfos, activeTab := o.activeTabID, error := "" }, none)

structure DownloadFileInput where
  url : String
  filename : String
  usePageAuth : Bool
  reasoning : String

structure DownloadFileOutput where
  success : Bool
  message : String
  filename : String
  filePath : String
  size : Int
  mimeType : String
deriving DecidableEq, Repr

/-- The `download_file` tool handler.  `usePageAuth` selects
`DownloadResource` (browser cookies/auth context) over the direct-HTTP
`DownloadFile`; the handler treats their results identically. -/
def downloadFileHandler (browserNil : Bool) (o : BrowserOracle)
    (input : DownloadFileInput) : DownloadFileOutput × Option String :=
  if browserNil then
    ({ success := false, message := "Browser not initialized", filename := ""
       filePath := "", size := 0, mimeType := "" }, none)
  else
    match (if input.usePageAuth then o.downloadResourceRes else o.downloadFileRes) with
    | .error err =>
      ({ success := false, message := err, filename := "", filePath := ""
         size := 0, mimeType := "" }, none)
    | .ok (filename, filePath, size, mimeType) =>
      ({ success := true
         message := "Downloaded: " ++ filename ++ " (" ++ toString size ++ " bytes)"
         filename := filename, filePath := filePath, size := size
         mimeType := mimeType }, none)

structure HumanTakeoverInput where
  reason : String

structure HumanTakeoverOutput where
  success : Bool
  message : String
  completed : Bool
deriving DecidableEq, Repr

/-- The `request_human_takeover` tool handler (no browser access at all). -/
def humanTakeoverHandler (input : HumanTakeoverInput) :
    HumanTakeoverOutput × Option String :=
  ({ success := true
     message := "Human takeover requested: " ++ input.reason ++
       ". Please complete the action and confirm."
     completed := false }, none)

structure DoneInput where
  success : Bool
  summary : String
  data : List (String × GoVal)

structure DoneOutput where
  success : Bool
  summary : String
  data : List (String × GoVal)

/-- The `done` tool handler (echoes its input). -/
def doneHandler (input : DoneInput) : DoneOutput × Option String :=
  ({ success := input.success, summary := input.summary, data := input.data }, none)

end Bua

namespace Bua

/-! ## Concrete document fixtures for the modal detector -/

/-- A fixed-position scrollable overlay: qualifies under priority 2 (area
200×101 = 20,200 px² above the threshold) and not under priority 3 (its
scrollable range is only 50px). -/
def overlayFixture : JSElem :=
  { role := "", display := "block", visibility := "visible", position := "fixed"
    overflowY := "auto", scrollHeight := 150, clientHeight := 100
    rectWidth := 200, rectHeight := 101, rectTop := 0, rectLeft := 0
    buaIndex := some 3, firstDescScroll := none }

/-- A static in-flow scrollable container: not an overlay (so it fails
priority 2) but qualifies under priority 3 with score
(1300 − 300) × 300 × ½ = 150,000. -/
def tier3OnlyFixture : JSElem :=
  { role := "", display := "block", visibility := "visible", position := "static"
    overflowY := "scroll", scrollHeight := 1300, clientHeight := 300
    rectWidth := 300, rectHeight := 300, rectTop := 0, rectLeft := 0
    buaIndex := some 7, firstDescScroll := none }

/-- A visible scrollable `role="dialog"` element carrying index 12. -/
def dialogFixture : JSElem :=
  { role := "dialog", display := "block", visibility := "visible", position := "fixed"
    overflowY := "auto", scrollHeight := 500, clientHeight := 300
    rectWidth := 400, rectHeight := 300, rectTop := 10, rectLeft := 10
    buaIndex := some 12, firstDescScroll := some (400, 200) }

end Bua

namespace Bua

/-! # Theorems

Helper lemmas first, then one theorem per claim (with counterexamples and
witnesses where a claim required them). -/

/-! ## Helper lemmas -/

theorem aLookup_aErase {α : Type} (m : List (String × α)) (key : String) :
    aLookup (aErase m key) key = none := by
  induction m with
  | nil => rfl
  | cons hd tl ih =>
    obtain ⟨k, v⟩ := hd
    by_cases h : k = key
    · simp [aErase, h, ih]
    · simp [aErase, aLookup, h, ih]

theorem aLookup_aInsert {α : Type} (m : List (String × α)) (key : String) (v : α) :
    aLookup (aInsert m key v) key = some v := by
  simp [aInsert, aLookup]

/-- Processing a function call touches `pendingSteps` only through the
single map assignment, whatever the tool name. -/
theorem processFunctionCall_pendingSteps (s : RunState) (n : String)
    (args : List (String × GoVal)) :
    (processFunctionCall s n args).pendingSteps =
      aInsert s.pendingSteps n (mkPendingStep n args) := by
  unfold processFunctionCall
  repeat' split <;> try rfl

/-- Processing a function response always ends by deleting the pending
entry for the responding tool. -/
theorem processFunctionResponse_pendingSteps (s : RunState) (n : String)
    (resp : List (String × GoVal)) :
    (processFunctionResponse s n resp).pendingSteps = aErase s.pendingSteps n := by
  unfold processFunctionResponse
  repeat' split <;> try rfl

theorem pickFold_mem (cs : List Cand) (c : Cand) :
    cs.foldl (fun best d => if d.score > best.score then d else best) c = c ∨
    cs.foldl (fun best d => if d.score > best.score then d else best) c ∈ cs := by
  induction cs generalizing c with
  | nil => exact .inl rfl
  | cons d ds ih =>
    simp only [List.foldl_cons]
    rcases ih (if d.score > c.score then d else c) with h | h
    · rw [h]
      by_cases hc : d.score > c.score
      · right; simp [hc]
      · left; simp [hc]
    · right; exact List.mem_cons_of_mem _ h

theorem pickFold_init_le (cs : List Cand) (c : Cand) :
    c.score ≤ (cs.foldl (fun best d => if d.score > best.score then d else best) c).score := by
  induction cs generalizing c with
  | nil => simp
  | cons d ds ih =>
    simp only [List.foldl_cons]
    refine le_trans ?_ (ih _)
    by_cases hc : d.score > c.score
    · simp only [hc, if_true]
      exact le_of_lt hc
    · simp [hc]

theorem pickFold_mem_le (cs : List Cand) (c : Cand) :
    ∀ d ∈ cs, d.score ≤
      (cs.foldl (fun best d => if d.score > best.score then d else best) c).score := by
  induction cs generalizing c with
  | nil => simp
  | cons e es ih =>
    intro d hd
    simp only [List.foldl_cons]
    rcases List.mem_cons.mp hd with h | h
    · subst h
      refine le_trans ?_ (pickFold_init_le es _)
      by_cases hc : d.score > c.score
      · simp [hc]
      · simp only [hc, if_false]
        exact le_of_not_lt hc
    · exact ih _ d h

/-- The head of the score-sorted candidate array is a candidate of maximal
score. -/
theorem pickBest_spec (cs : List Cand) (c : Cand) (h : pickBest cs = some c) :
    c ∈ cs ∧ ∀ d ∈ cs, d.score ≤ c.score := by
  cases cs with
  | nil => cases h
  | cons e es =>
    simp only [pickBest, Option.some.injEq] at h
    subst h
    constructor
    · rcases pickFold_mem es e with h | h
      · rw [h]; exact List.mem_cons_self _ _
      · exact List.mem_cons_of_mem _ h
    · intro d hd
      rcases List.mem_cons.mp hd with h | h
      · subst h
        exact pickFold_init_le es d
      · exact pickFold_mem_le es e d h

/-- The priority-2 pass on the counterexample fixture accepts the overlay. -/
theorem tier2_overlayFixture_eval : isTier2 overlayFixture = true := by
  norm_num [isTier2, tier2Score, overlayFixture]
  all_goals decide

/-! ## Claim C1 -/

/-- Claim C1: for a matched tool-call/tool-response pair processed by
`Agent.Run`, a Step whose action equals the tool name is appended to
`Result.Steps` exactly when the response reports `success == true` and the
tool is neither `done` nor `get_page_state`; a response with
`success == false` (or no boolean `success`) appends nothing; and the
pending entry for the tool name is cleared by the response regardless of
its success value. -/
theorem run_step_promotion (s : RunState) (n : String)
    (args resp : List (String × GoVal)) :
    (mkPendingStep n args).action = n ∧
    aLookup (processFunctionCall s n args).pendingSteps n = some (mkPendingStep n args) ∧
    aLookup (processFunctionResponse (processFunctionCall s n args) n resp).pendingSteps n
      = none ∧
    (processFunctionResponse (processFunctionCall s n args) n resp).steps =
      (if respSuccessTrue resp && n != "done" && n != "get_page_state"
       then (processFunctionCall s n args).steps ++ [mkPendingStep n args]
       else (processFunctionCall s n args).steps) := by
  refine ⟨rfl, ?_, ?_, ?_⟩
  · rw [processFunctionCall_pendingSteps, aLookup_aInsert]
  · rw [processFunctionResponse_pendingSteps, aLookup_aErase]
  · unfold processFunctionResponse
    rw [processFunctionCall_pendingSteps, aLookup_aInsert]
    cases h : respSuccessTrue resp with
    | true =>
      simp only [h, if_true]
      by_cases hd : (n != "done" && n != "get_page_state") = true
      · simp [hd]
      · simp only [Bool.not_eq_true] at hd
        simp [hd]
    | false => simp [h]

/-! ## Claim C2 -/

/-- Claim C2 counterexample: a stream that terminates without any events —
so certainly without a `done` call — leaves the run with `Success == true`
and an empty `Error`, not `Failed` with a populated error as the claim
states: `result` is initialised to success and nothing after the loop
changes that. -/
theorem run_clean_termination_not_failed :
    agentRunEvents [] = .res initRunState ∧
    initRunState.doneToolCalled = false ∧
    initRunState.success = true ∧
    initRunState.error = "" :=
  ⟨rfl, rfl, rfl, rfl⟩

/-- Claim C2 (amended): a stream *error* observed when no successful `done`
has been seen — outside the human-takeover, empty-response-with-steps and
rate-limit special cases — ends the run as Failed with `Result.Error` set
to the raw error text; an error observed after a `done` call with
`success == true` is swallowed, leaving the result to the remaining
events; and clean stream termination (error-free end of events) returns
the result as already built, so a stream that simply ends without `done`
does not by itself produce a Failed result. -/
theorem run_stream_error_handling :
    (∀ (s : RunState) (e : String) (rest : List Event),
        ¬(s.doneToolCalled = true ∧ s.success = true) →
        s.humanTakeoverRequested = false →
        ¬(e = "empty response" ∧ s.steps ≠ []) →
        (parseRateLimitDelay e).2 = false →
        runLoop s (.errEvent e :: rest) = .res { s with success := false, error := e }) ∧
    (∀ (s : RunState) (e : String) (rest : List Event),
        s.doneToolCalled = true → s.success = true →
        runLoop s (.errEvent e :: rest) = runLoop s rest) ∧
    (∀ s : RunState, runLoop s [] = .res s) := by
  refine ⟨?_, ?_, fun s => rfl⟩
  · intro s e rest h1 h2 h3 h4
    have h1' : (s.doneToolCalled && s.success) = false := by
      cases hd : s.doneToolCalled <;> cases hs : s.success <;> simp_all
    have h3' : (e == "empty response" && !List.isEmpty s.steps) = false := by
      by_cases he : e = "empty response"
      · subst he
        simp only [ne_eq, not_and, not_not] at h3
        have : s.steps = [] := h3 trivial
        simp [this]
      · simp [he]
    simp [runLoop, h1', h2, h3', h4]
  · intro s e rest hd hs
    simp [runLoop, hd, hs]

/-- Claim C2 witness: a generic transport error "boom" on a fresh run fails
the run with that error text, and the same error after a successful `done`
is skipped. -/
theorem run_stream_error_handling_witness :
    runLoop initRunState [.errEvent "boom"] =
      .res { initRunState with success := false, error := "boom" } ∧
    runLoop { initRunState with doneToolCalled := true } [.errEvent "boom"] =
      runLoop { initRunState with doneToolCalled := true } [] := by
  constructor
  · exact run_stream_error_handling.1 initRunState "boom" [] (by decide) rfl
      (by simp [initRunState]) (by decide)
  · exact run_stream_error_handling.2.1 _ "boom" [] rfl rfl

/-! ## Claim C3 -/

/-- Claim C3 counterexample: a message containing both "429" and
"Please retry in 12.5s." parses to 7s, not 12.5s, because the leftmost
`retry in <n>s` occurrence wins — refuting the claim's "for any message
containing" both texts. -/
theorem parseRateLimitDelay_leftmost_match_counterexample :
    hasSub ("429").data ("429 retry in 7s Please retry in 12.5s.").data = true ∧
    hasSub ("Please retry in 12.5s.").data
      ("429 retry in 7s Please retry in 12.5s.").data = true ∧
    parseRateLimitDelay "429 retry in 7s Please retry in 12.5s." = (7000000000, true) ∧
    ((7000000000 : Int), true) ≠ ((12500000000 : Int), true) := by
  refine ⟨by decide, by decide, by decide, by decide⟩

/-- Claim C3 (amended): `parseRateLimitDelay` returns (12.5s, true) on the
spec's example message (where the only delay shape present is
"retry in 12.5s"); returns (0, false) for "connection reset"; and returns
the 30-second default with `true` for every message that matches the
rate-limit signature (contains "429" or "RESOURCE_EXHAUSTED") but matches
neither of the two delay shapes.  On a message with an earlier
`retry in <n>s` occurrence, the leftmost occurrence wins (see the
counterexample). -/
theorem parseRateLimitDelay_behavior :
    parseRateLimitDelay "... 429 ... Please retry in 12.5s." = (12500000000, true) ∧
    parseRateLimitDelay "connection reset" = (0, false) ∧
    (∀ msg : String, isRateLimitMsg msg.data = true →
        findRetryIn msg.data = none → findRetryDelay msg.data = none →
        parseRateLimitDelay msg = (30000000000, true)) := by
  refine ⟨by decide, by decide, ?_⟩
  intro msg h1 h2 h3
  unfold parseRateLimitDelay
  simp [h1, h2, h3]

/-- Claim C3 witness: "RESOURCE_EXHAUSTED" matches the signature but
neither delay shape, so the default 30-second delay is returned. -/
theorem parseRateLimitDelay_behavior_witness :
    parseRateLimitDelay "RESOURCE_EXHAUSTED" = (30000000000, true) :=
  parseRateLimitDelay_behavior.2.2 "RESOURCE_EXHAUSTED" (by decide) (by decide) (by decide)

/-! ## Claim C4 -/

/-- Claim C4: on a registry holding exactly one tab, `CloseTab` of that
tab's id returns the last-tab error and leaves the registry unchanged: the
tab is still listed by `ListTabs` (its page info resolving) and remains
the active tab. -/
theorem closeTab_last_tab_protected (st : BrowserState) (tabID : String) (p : Nat)
    (info : Nat → Option PageInfo) (i : PageInfo)
    (hpages : st.pages = [(tabID, p)]) (hactive : st.activeTabID = tabID)
    (hinfo : info p = some i) :
    (closeTab st tabID).2 = some "cannot close the last tab" ∧
    (closeTab st tabID).1 = st ∧
    (listTabs (closeTab st tabID).1 info).map TabInfoRec.id = [tabID] ∧
    (closeTab st tabID).1.activeTabID = tabID := by
  have hclose : closeTab st tabID = (st, some "cannot close the last tab") := by
    unfold closeTab
    rw [hpages]
    simp [aLookup]
  refine ⟨by rw [hclose], by rw [hclose], ?_, by rw [hclose]; exact hactive⟩
  rw [hclose]
  simp [listTabs, hpages, hinfo]

/-- Claim C4 witness: a concrete single-tab registry. -/
theorem closeTab_last_tab_protected_witness :
    (closeTab ⟨[("ab12cd34", 1)], "ab12cd34", some 1⟩ "ab12cd34").2 =
      some "cannot close the last tab" ∧
    (closeTab ⟨[("ab12cd34", 1)], "ab12cd34", some 1⟩ "ab12cd34").1 =
      ⟨[("ab12cd34", 1)], "ab12cd34", some 1⟩ ∧
    (listTabs (closeTab ⟨[("ab12cd34", 1)], "ab12cd34", some 1⟩ "ab12cd34").1
        (fun _ => some ⟨"https://example.com", "Example"⟩)).map TabInfoRec.id =
      ["ab12cd34"] ∧
    (closeTab ⟨[("ab12cd34", 1)], "ab12cd34", some 1⟩ "ab12cd34").1.activeTabID =
      "ab12cd34" :=
  closeTab_last_tab_protected ⟨[("ab12cd34", 1)], "ab12cd34", some 1⟩ "ab12cd34" 1
    (fun _ => some ⟨"https://example.com", "Example"⟩) ⟨"https://example.com", "Example"⟩
    rfl rfl rfl

end Bua

namespace Bua

/-! ## Claim C5 -/

/-- Claim C5 counterexample: the priority-2 and priority-3 passes share one
candidate array sorted only by score, so with a qualifying priority-2
overlay (index 3, score 20,200) present, a priority-3-only container
(index 7, score 150,000) is still returned — refuting "whenever at least
one tier-2 candidate qualifies, the returned index is a tier-2 candidate,
never an element qualifying only under tier 3". -/
theorem findScrollableModal_tier3_beats_tier2_counterexample :
    findScrollableModal [overlayFixture, tier3OnlyFixture] = 7 ∧
    isTier2 overlayFixture = true ∧
    overlayFixture.buaIndex = some 3 ∧
    isTier2 tier3OnlyFixture = false ∧
    isTier3 tier3OnlyFixture = true ∧
    tier2Cands [overlayFixture, tier3OnlyFixture] = [⟨3, 20200⟩] ∧
    (7 : Int) ≠ 3 := by
  refine ⟨?_, tier2_overlayFixture_eval, rfl, ?_, ?_, ?_, by decide⟩
  · norm_num [findScrollableModal, tier1, overlayFixture, tier3OnlyFixture, dialogQualifies,
      tier2Cands, tier3Cands, isTier2, isTier3, tier2Score, tier3Score, List.filterMap,
      pickBest]
    all_goals decide
  · norm_num [isTier2, tier2Score, tier3OnlyFixture]
    all_goals decide
  · norm_num [isTier3, tier3OnlyFixture]
    all_goals decide
  · norm_num [tier2Cands, List.filterMap, overlayFixture, tier3OnlyFixture, isTier2,
      isTier3, tier2Score, tier3Score]
    all_goals decide

/-- Claim C5 (amended): `FindScrollableModal` evaluates priority 1 first
and its first qualifying dialog wins outright, before priorities 2 and 3
are considered; priorities 2 and 3 push into a single shared candidate
pool scored together (tier 3 at half weight), and the pooled candidate
with the highest score wins regardless of tier (earliest wins ties, per
the stable sort); an empty pool returns -1.  A tier-3-only candidate can
therefore out-score and beat a qualifying tier-2 candidate (see the
counterexample). -/
theorem findScrollableModal_tier_structure (doc : List JSElem) :
    (∀ i, tier1 doc = some i → findScrollableModal doc = i) ∧
    (tier1 doc = none → tier2Cands doc ++ tier3Cands doc = [] →
      findScrollableModal doc = -1) ∧
    (∀ c, tier1 doc = none →
      pickBest (tier2Cands doc ++ tier3Cands doc) = some c →
      findScrollableModal doc = c.idx ∧
      c ∈ tier2Cands doc ++ tier3Cands doc ∧
      ∀ d ∈ tier2Cands doc ++ tier3Cands doc, d.score ≤ c.score) := by
  refine ⟨?_, ?_, ?_⟩
  · intro i h
    simp [findScrollableModal, h]
  · intro h1 h2
    simp [findScrollableModal, h1, h2, pickBest]
  · intro c h1 h2
    refine ⟨by simp [findScrollableModal, h1, h2], (pickBest_spec _ c h2).1,
      (pickBest_spec _ c h2).2⟩

/-- Claim C5 witness: a document whose only element is a qualifying dialog
resolves through priority 1 to its index, and an empty document returns
-1. -/
theorem findScrollableModal_tier_structure_witness :
    findScrollableModal [dialogFixture] = 12 ∧ findScrollableModal [] = -1 :=
  ⟨(findScrollableModal_tier_structure [dialogFixture]).1 12 (by
      norm_num [tier1, dialogFixture, dialogQualifies]
      all_goals decide),
    (findScrollableModal_tier_structure []).2.1 rfl rfl⟩

/-! ## Claim C6 -/

/-- Claim C6: `Browser.Click(elementIndex)` works over a freshly extracted
element map; when the index resolves it dispatches exactly the sequence
mouse-moved, mouse-pressed, mouse-released at the element's bounding-box
centre (x + width/2, y + height/2) with click counts 0, 1, 1; when the
index is absent from the fresh snapshot it returns the element-not-found
error and dispatches no pointer events. -/
theorem click_center_dispatch (em : ElementMap) (idx : Int)
    (dispatch : MouseEvent → Option String) :
    (em.byIndex idx = none →
      clickOps (.ok em) idx dispatch =
        ([], .error ("element with index " ++ toString idx ++ " not found"))) ∧
    (∀ el, em.byIndex idx = some el → (∀ e, dispatch e = none) →
      clickOps (.ok em) idx dispatch =
        ([⟨"mouseMoved", el.boundingBox.x + el.boundingBox.width / 2,
            el.boundingBox.y + el.boundingBox.height / 2, 0⟩,
          ⟨"mousePressed", el.boundingBox.x + el.boundingBox.width / 2,
            el.boundingBox.y + el.boundingBox.height / 2, 1⟩,
          ⟨"mouseReleased", el.boundingBox.x + el.boundingBox.width / 2,
            el.boundingBox.y + el.boundingBox.height / 2, 1⟩], .ok ())) := by
  constructor
  · intro h
    simp [clickOps, h]
  · intro el h hd
    simp [clickOps, h, hd]

/-- Claim C6 witness: clicking index 3 on a one-element snapshot dispatches
the three pointer events at the box centre; index 99 is absent and
dispatches nothing. -/
theorem click_center_dispatch_witness :
    clickOps (.ok ⟨[⟨3, ⟨10, 20, 30, 40⟩⟩]⟩) 3 (fun _ => none) =
      ([⟨"mouseMoved", (10 : ℚ) + 30 / 2, (20 : ℚ) + 40 / 2, 0⟩,
        ⟨"mousePressed", (10 : ℚ) + 30 / 2, (20 : ℚ) + 40 / 2, 1⟩,
        ⟨"mouseReleased", (10 : ℚ) + 30 / 2, (20 : ℚ) + 40 / 2, 1⟩], .ok ()) ∧
    clickOps (.ok ⟨[⟨3, ⟨10, 20, 30, 40⟩⟩]⟩) 99 (fun _ => none) =
      ([], .error ("element with index " ++ toString (99 : Int) ++ " not found")) :=
  ⟨(click_center_dispatch ⟨[⟨3, ⟨10, 20, 30, 40⟩⟩]⟩ 3 (fun _ => none)).2
      ⟨3, ⟨10, 20, 30, 40⟩⟩ rfl (fun _ => rfl),
    (click_center_dispatch ⟨[⟨3, ⟨10, 20, 30, 40⟩⟩]⟩ 99 (fun _ => none)).1 rfl⟩

/-! ## Claim C7 -/

/-- Claim C7 counterexample: in the protocol trace of `createTabLocked`,
the operation that initiates navigation to the requested URL comes at
index 0 — the creation call itself carries the URL — while the
device-metrics override comes at index 1, so the override is not issued
before navigation to the requested URL begins. -/
theorem createTab_navigation_before_viewport_counterexample :
    (createTabLockedOps (some (1280, 800)) "https://example.com/").findIdx?
        (fun op => initiatesNavigationTo op "https://example.com/") = some 0 ∧
    (createTabLockedOps (some (1280, 800)) "https://example.com/").findIdx?
        isDeviceMetricsOverride = some 1 ∧
    ¬((1 : Nat) < 0) := by
  refine ⟨by decide, by decide, by decide⟩

/-- Claim C7 (amended): when a viewport is configured, `createTabLocked`
issues exactly the creation call followed immediately by the
device-metrics override, and `NewTab`'s load-wait and stability-wait come
only after the override — but the creation call itself carries the
requested URL and is what initiates navigation to it, so the override is
applied after navigation begins, not before. -/
theorem createTab_viewport_ordering (url : String) (w h : Int) :
    createTabLockedOps (some (w, h)) url =
      [ProtoOp.targetCreateTarget url, ProtoOp.setDeviceMetricsOverride w h] ∧
    newTabOps (some (w, h)) url =
      [ProtoOp.targetCreateTarget url, ProtoOp.setDeviceMetricsOverride w h,
        ProtoOp.pageWaitLoad, ProtoOp.pageWaitStable] ∧
    isDeviceMetricsOverride (ProtoOp.setDeviceMetricsOverride w h) = true ∧
    initiatesNavigationTo (ProtoOp.targetCreateTarget url) url = true := by
  refine ⟨rfl, rfl, rfl, by simp [initiatesNavigationTo]⟩

/-! ## Claim C8 -/

/-- Claim C8 counterexample: a recorded step for a call whose free text
contains all four structured-thinking headers stores that text verbatim in
`Reasoning` — the header "Evaluation:" remains embedded in the text — and
the `Step` struct has only the action/target/reasoning/screenshot-path
fields, so no thinking/evaluation/memory/nextGoal fields exist to
populate. -/
theorem step_no_parsed_thinking_fields_counterexample :
    mkPendingStep "click"
      [("reasoning",
        GoVal.vStr "Thinking: inspect page\nEvaluation: ok\nMemory: none\nNext Goal: log in"),
       ("element_index", GoVal.vInt 5)] =
      { action := "click", target := "Element #5"
        reasoning := "Thinking: inspect page\nEvaluation: ok\nMemory: none\nNext Goal: log in"
        screenshotPath := "" } ∧
    hasSub ("Evaluation:").data
      ("Thinking: inspect page\nEvaluation: ok\nMemory: none\nNext Goal: log in").data =
      true := by
  refine ⟨by decide, by decide⟩

/-- Claim C8 (amended): a recorded Step carries exactly the four source
fields action, target, reasoning and screenshot path; the model's free
text reaches `Reasoning` verbatim from the call's `reasoning` argument,
with no section-boundary parsing into thinking/evaluation/memory/nextGoal
(which do not exist in the struct). -/
theorem step_reasoning_verbatim (n raw : String) (rest : List (String × GoVal)) :
    (mkPendingStep n (("reasoning", GoVal.vStr raw) :: rest)).reasoning = raw ∧
    (mkPendingStep n (("reasoning", GoVal.vStr raw) :: rest)).action = n ∧
    (mkPendingStep n (("reasoning", GoVal.vStr raw) :: rest)).screenshotPath = "" := by
  refine ⟨?_, rfl, rfl⟩
  simp [mkPendingStep, aLookup, GoVal.asStr]

/-! ## Claim C9 -/

/-- Claim C9: no tool handler registered by `createBrowserTools` returns a
non-nil Go error for any input or browser outcome — failures (browser not
initialized, browser-operation errors, invalid scroll direction) are
reported only through a `success == false` output, so a failing tool
invocation never aborts the event stream. -/
theorem createBrowserTools_handlers_never_error :
    (∀ (bn : Bool) (o : BrowserOracle) (i : ClickInput), (clickHandler bn o i).2 = none) ∧
    (∀ (bn : Bool) (o : BrowserOracle) (i : TypeInput), (typeHandler bn o i).2 = none) ∧
    (∀ (bn : Bool) (o : BrowserOracle) (i : ScrollInput), (scrollHandler bn o i).2 = none) ∧
    (∀ (bn : Bool) (o : BrowserOracle) (i : NavigateInput), (navigateHandler bn o i).2 = none) ∧
    (∀ (bn : Bool) (o : BrowserOracle) (i : WaitInput), (waitHandler bn o i).2 = none) ∧
    (∀ (bn tOnly : Bool) (o : BrowserOracle) (i : GetPageStateInput),
      (getPageStateHandler bn tOnly o i).2 = none) ∧
    (∀ (bn : Bool) (o : BrowserOracle) (i : NewTabInput), (newTabHandler bn o i).2 = none) ∧
    (∀ (bn : Bool) (o : BrowserOracle) (i : SwitchTabInput), (switchTabHandler bn o i).2 = none) ∧
    (∀ (bn : Bool) (o : BrowserOracle) (i : CloseTabInput), (closeTabHandler bn o i).2 = none) ∧
    (∀ (bn : Bool) (o : BrowserOracle), (listTabsHandler bn o).2 = none) ∧
    (∀ (bn : Bool) (o : BrowserOracle) (i : DownloadFileInput),
      (downloadFileHandler bn o i).2 = none) ∧
    (∀ i : HumanTakeoverInput, (humanTakeoverHandler i).2 = none) ∧
    (∀ i : DoneInput, (doneHandler i).2 = none) := by
  refine ⟨?_, ?_, ?_, ?_, ?_, ?_, ?_, ?_, ?_, ?_, ?_, ?_, ?_⟩ <;>
    · intros
      first
      | rfl
      | (simp only [clickHandler, typeHandler, scrollHandler, navigateHandler, waitHandler,
          getPageStateHandler, newTabHandler, switchTabHandler, closeTabHandler,
          listTabsHandler, downloadFileHandler]
         repeat' split <;> try rfl)

/-! ## Claim C10 -/

/-- Claim C10: `GetURL` and `GetTitle` are total (they always return a
string, never an error) and return the empty string both when no active
page exists and when the page-info query fails. -/
theorem getURL_getTitle_total (st : BrowserState) (info : Nat → Option PageInfo) :
    (getActivePageLocked st = none → getURL st info = "" ∧ getTitle st info = "") ∧
    (∀ p, getActivePageLocked st = some p → info p = none →
      getURL st info = "" ∧ getTitle st info = "") := by
  constructor
  · intro h
    exact ⟨by simp [getURL, h], by simp [getTitle, h]⟩
  · intro p h hi
    exact ⟨by simp [getURL, h, hi], by simp [getTitle, h, hi]⟩

/-- Claim C10 witness: an empty registry has no active page, and a registry
whose active page's `Info()` fails also yields empty strings. -/
theorem getURL_getTitle_total_witness :
    (getURL ⟨[], "", none⟩ (fun _ => none) = "" ∧
      getTitle ⟨[], "", none⟩ (fun _ => none) = "") ∧
    (getURL ⟨[("t", 4)], "t", none⟩ (fun _ => none) = "" ∧
      getTitle ⟨[("t", 4)], "t", none⟩ (fun _ => none) = "") :=
  ⟨(getURL_getTitle_total ⟨[], "", none⟩ (fun _ => none)).1 rfl,
    (getURL_getTitle_total ⟨[("t", 4)], "t", none⟩ (fun _ => none)).2 4 rfl rfl⟩

end Bua
